import Mathlib

/-!
# eve-member-webhook: the reconciliation cycle of `src/index.js`

A shallow embedding of `getConfig`, `fetchMembers`, `loadPreviousMembers`,
`saveMembers`, `sendDiscordWebhook` and `checkMembers`.

Effects are explicit.  One cycle is a function of
* the surroundings of the process for that cycle (`Env`): the environment
  variables, and what the HTTP client and the file write do when called, and
* the snapshot file before the cycle (`FileState`),
returning the snapshot file after the cycle and the chronological list of
effects (`Event`) the cycle performed.

Scope of the data model: a roster is a JavaScript array of records with a
`character_id` (a number or a string) and a `name` (a string); a snapshot file
that exists either parses to such an array or makes `readFileSync`/`JSON.parse`
throw.  `checkInterval` (used only by the start-up timer) is not modelled.
-/

namespace EveMemberWebhook

/-! ## Data model -/

/-- A member id: a JavaScript number or a JavaScript string.  Two keys are the
same `Map` key only when they are the same kind and the same value. -/
inductive Key where
  | num (n : Int)
  | str (s : String)
deriving DecidableEq, Repr

/-- One roster record, `{ character_id, name }`. -/
structure Member where
  character_id : Key
  name : String
deriving DecidableEq, Repr

/-- The content of `data/members.json`. -/
inductive FileState where
  /-- No file: `fs.existsSync(MEMBERS_FILE)` is false. -/
  | absent
  /-- The file exists with content `raw`, and reading or parsing it throws. -/
  | corrupt (raw : String)
  /-- The file exists and parses to the array `members`. -/
  | roster (members : List Member)
deriving DecidableEq, Repr

/-- The `response.data` of a GET that resolved, as far as `fetchMembers` looks at it. -/
inductive Body where
  /-- A falsy `response.data` (no body, `null`, empty string, ...). -/
  | falsy
  /-- A truthy `response.data` whose `characters` is missing or falsy. -/
  | noCharacters
  /-- A `response.data` whose `characters` is the array `list`. -/
  | characters (list : List Member)
deriving DecidableEq, Repr

/-- What `axios.get` does. -/
inductive GetOutcome where
  /-- The promise rejects (network error, or a status outside 2xx), with `error.message`. -/
  | throws (message : String)
  /-- The promise resolves with a response whose `data` is `data`. -/
  | response (data : Body)
deriving DecidableEq, Repr

/-- The part of `process.env` the cycle reads. -/
structure ProcessEnv where
  DISCORD_WEBHOOK_URL : Option String
  CORP_ID : Option String
deriving DecidableEq, Repr

/-- The surroundings of one cycle. -/
structure Env where
  processEnv : ProcessEnv
  /-- What `axios.get(url, ...)` does. -/
  get : String → GetOutcome
  /-- What `axios.post` does at the `k`-th call of `sendDiscordWebhook` in the cycle:
  `none` when the promise resolves, `some message` when it rejects. -/
  post : Nat → Option String
  /-- What `fs.writeFileSync(MEMBERS_FILE, ...)` does: `none` when it returns,
  `some message` when it throws. -/
  write : Option String
  /-- The `error.message` of a throwing `readFileSync`/`JSON.parse`. -/
  readMessage : String

/-- The effects of a cycle, in the order they happen. -/
inductive Event where
  /-- A call `console.log(line)`. -/
  | log (line : String)
  /-- A call `console.error(line)`. -/
  | error (line : String)
  /-- A call `axios.get(url, ...)`. -/
  | httpGet (url : String)
  /-- A call `axios.post(url, { content }, ...)`. -/
  | httpPost (url : String) (content : String)
  /-- A call `fs.existsSync(MEMBERS_FILE)`. -/
  | existsSync
  /-- A call `fs.readFileSync(MEMBERS_FILE, 'utf8')`. -/
  | readFile
  /-- A call `fs.writeFileSync(MEMBERS_FILE, JSON.stringify(members, null, 2))`. -/
  | writeFile (members : List Member)
  /-- A call `sendDiscordWebhook(content)`. -/
  | sendDiscordWebhook (content : String)
deriving DecidableEq, Repr

/-! ## JavaScript `Map` -/

/-- A JavaScript `Map` from ids to names: its entries in insertion order, one per key. -/
structure JsMap where
  entries : List (Key × String)
deriving DecidableEq, Repr

/-- The entry list after `map.set(k, v)`: an existing key keeps its position and
takes the new value, a new key is appended. -/
def setEntry (k : Key) (v : String) : List (Key × String) → List (Key × String)
  | [] => [(k, v)]
  | e :: rest => if e.1 = k then (k, v) :: rest else e :: setEntry k v rest

/-- The method `map.set(k, v)`. -/
def JsMap.set (m : JsMap) (k : Key) (v : String) : JsMap :=
  ⟨setEntry k v m.entries⟩

/-- The method `map.has(k)`. -/
def JsMap.has (m : JsMap) (k : Key) : Bool :=
  m.entries.any (fun e => decide (e.1 = k))

/-- The method `map.get(k)`, `none` for `undefined`. -/
def JsMap.get (m : JsMap) (k : Key) : Option String :=
  (m.entries.find? (fun e => decide (e.1 = k))).map (fun e => e.2)

/-- The constructor `new Map(pairs)`: the pairs are `set` one after the other. -/
def JsMap.ofPairs (pairs : List (Key × String)) : JsMap :=
  pairs.foldl (fun m e => m.set e.1 e.2) ⟨[]⟩

/-! ## The functions of `src/index.js` -/

/-- The object `getConfig()` returns, without `checkInterval`. -/
structure Config where
  discordWebhookUrl : Option String
  corpId : String
deriving DecidableEq, Repr

/-- Source `getConfig`: `CORP_ID || '98735707'` falls back on an unset or empty variable. -/
def getConfig (p : ProcessEnv) : Config :=
  { discordWebhookUrl := p.DISCORD_WEBHOOK_URL
    corpId :=
      match p.CORP_ID with
      | none => "98735707"
      | some s => if s = "" then "98735707" else s }

/-- Source `fetchMembers`: `null` (here `none`) only from the `catch`; a response
without a truthy `characters` gives the empty array. -/
def fetchMembers (env : Env) (corpId : String) : Option (List Member) × List Event :=
  let url := "https://evewho.com/api/corplist/" ++ corpId
  match env.get url with
  | .response data =>
    match data with
    | .characters list => (some list, [.httpGet url])
    | .noCharacters => (some [], [.httpGet url])
    | .falsy => (some [], [.httpGet url])
  | .throws message =>
    (none, [.httpGet url, .error ("Error fetching members: " ++ message)])

/-- Source `loadPreviousMembers`: `null` (here `none`) marks the first run. -/
def loadPreviousMembers (env : Env) (file : FileState) : Option (List Member) × List Event :=
  match file with
  | .absent => (none, [.existsSync])
  | .roster members => (some members, [.existsSync, .readFile])
  | .corrupt _ =>
    (some [], [.existsSync, .readFile, .error ("Error reading members file: " ++ env.readMessage)])

/-- Source `saveMembers`.  A write that throws is taken to leave the file as it was. -/
def saveMembers (env : Env) (file : FileState) (members : List Member) : FileState × List Event :=
  match env.write with
  | none => (.roster members, [.writeFile members])
  | some message =>
    (file, [.writeFile members, .error ("Error saving members file: " ++ message)])

/-- The guard of `sendDiscordWebhook`:
`!discordWebhookUrl || discordWebhookUrl === 'your_webhook_url_here'`. -/
def webhookDisabled (url : Option String) : Bool :=
  match url with
  | none => true
  | some u => decide (u = "") || decide (u = "your_webhook_url_here")

/-- Source `sendDiscordWebhook`, as the `k`-th call of the cycle. -/
def sendDiscordWebhook (env : Env) (k : Nat) (content : String) : List Event :=
  let url := (getConfig env.processEnv).discordWebhookUrl
  if webhookDisabled url then
    [.sendDiscordWebhook content,
     .log ("Discord Webhook URL not configured, skipping notification: " ++ content)]
  else
    match env.post k with
    | none =>
      [.sendDiscordWebhook content, .httpPost (url.getD "") content,
       .log ("Sent Discord notification: " ++ content)]
    | some message =>
      [.sendDiscordWebhook content, .httpPost (url.getD "") content,
       .error ("Error sending Discord webhook: " ++ message)]

/-- The template string of the first loop of `checkMembers`. -/
def joinedMessage (member : Member) : String :=
  "**" ++ member.name ++ "** has joined the corporation."

/-- The template string of the second loop of `checkMembers`. -/
def leftMessage (member : Member) : String :=
  "**" ++ member.name ++ "** has left the corporation."

/-- A loop `for (const member of members) await sendDiscordWebhook(message(member))`,
its first call being the `k`-th of the cycle. -/
def sendEach (env : Env) (message : Member → String) : Nat → List Member → List Event
  | _, [] => []
  | k, member :: rest =>
    sendDiscordWebhook env k (message member) ++ sendEach env message (k + 1) rest

/-- The local `currentMap` (and, on the snapshot, `previousMap`) of `checkMembers`. -/
def memberMap (members : List Member) : JsMap :=
  JsMap.ofPairs (members.map (fun m => (m.character_id, m.name)))

/-- The local `joined` of `checkMembers`. -/
def joined (currentMembers previousMembers : List Member) : List Member :=
  currentMembers.filter (fun m => !(memberMap previousMembers).has m.character_id)

/-- The local `left` of `checkMembers`. -/
def left (currentMembers previousMembers : List Member) : List Member :=
  previousMembers.filter (fun m => !(memberMap currentMembers).has m.character_id)

/-- Source `checkMembers`: the snapshot file after the cycle and the effects of the cycle. -/
def checkMembers (env : Env) (file : FileState) : FileState × List Event :=
  let corpId := (getConfig env.processEnv).corpId
  let t0 : List Event := [.log ("Checking members for corp " ++ corpId ++ "...")]
  let fetched := fetchMembers env corpId
  match fetched.1 with
  | none =>
    (file, t0 ++ fetched.2 ++ [.log "Failed to fetch members, skipping this check."])
  | some currentMembers =>
    let loaded := loadPreviousMembers env file
    match loaded.1 with
    | none =>
      let saved := saveMembers env file currentMembers
      (saved.1,
        t0 ++ fetched.2 ++ loaded.2 ++ [.log "First run. saving current member list."] ++ saved.2)
    | some previousMembers =>
      let joined := joined currentMembers previousMembers
      let left := left currentMembers previousMembers
      let t1 : List Event :=
        if joined.length > 0 then
          .log (toString joined.length ++ " members joined.") :: sendEach env joinedMessage 0 joined
        else []
      let t2 : List Event :=
        if left.length > 0 then
          .log (toString left.length ++ " members left.")
            :: sendEach env leftMessage joined.length left
        else []
      if joined.length > 0 ∨ left.length > 0 then
        let saved := saveMembers env file currentMembers
        (saved.1, t0 ++ fetched.2 ++ loaded.2 ++ t1 ++ t2 ++ saved.2)
      else
        (file, t0 ++ fetched.2 ++ loaded.2 ++ t1 ++ t2 ++ [.log "No changes detected."])

/-! ## Observations on a trace -/

/-- The messages handed to `sendDiscordWebhook`, in call order. -/
def notifications : List Event → List String
  | [] => []
  | .sendDiscordWebhook content :: rest => content :: notifications rest
  | _ :: rest => notifications rest

/-- The HTTP POSTs issued, as (url, content), in order. -/
def posts : List Event → List (String × String)
  | [] => []
  | .httpPost url content :: rest => (url, content) :: posts rest
  | _ :: rest => posts rest

/-- The arrays handed to `fs.writeFileSync`, in order. -/
def writes : List Event → List (List Member)
  | [] => []
  | .writeFile members :: rest => members :: writes rest
  | _ :: rest => writes rest

/-- The number of `existsSync`/`readFileSync` calls on the snapshot file. -/
def snapshotReads : List Event → Nat
  | [] => 0
  | .existsSync :: rest => snapshotReads rest + 1
  | .readFile :: rest => snapshotReads rest + 1
  | _ :: rest => snapshotReads rest

/-- The ids of a roster, in roster order. -/
def ids (members : List Member) : List Key :=
  members.map (fun m => m.character_id)


/-- The events of a cycle on the diff path of `checkMembers` up to its final `if`;
a name for that part of the trace, used in the proofs. -/
def diffTrace (env : Env) (file : FileState) (currentMembers previousMembers : List Member) :
    List Event :=
  [Event.log ("Checking members for corp " ++ (getConfig env.processEnv).corpId ++ "...")]
    ++ (fetchMembers env (getConfig env.processEnv).corpId).2
    ++ (loadPreviousMembers env file).2
    ++ (if (joined currentMembers previousMembers).length > 0 then
          Event.log (toString (joined currentMembers previousMembers).length ++ " members joined.")
            :: sendEach env joinedMessage 0 (joined currentMembers previousMembers)
        else [])
    ++ (if (left currentMembers previousMembers).length > 0 then
          Event.log (toString (left currentMembers previousMembers).length ++ " members left.")
            :: sendEach env leftMessage (joined currentMembers previousMembers).length
                (left currentMembers previousMembers)
        else [])

/-! ## Sample data: the records and settings of `tests/verify.js` -/

def alice : Member := ⟨.num 1, "Alice"⟩

def bob : Member := ⟨.num 2, "Bob"⟩

def charlie : Member := ⟨.num 3, "Charlie"⟩

/-- A second record carrying the id of `bob`. -/
def bobby : Member := ⟨.num 2, "Bobby"⟩

/-- The URL `fetchMembers` requests for the corporation of the tests. -/
def corpUrl : String := "https://evewho.com/api/corplist/98735707"

/-- A cycle's surroundings with `CORP_ID = '98735707'`: the webhook variable, the outcome of
the GET, the outcome of every POST and the outcome of the file write. -/
def sampleEnv (webhook : Option String) (outcome : GetOutcome) (post : Nat → Option String)
    (write : Option String) : Env :=
  { processEnv := { DISCORD_WEBHOOK_URL := webhook, CORP_ID := some "98735707" }
    get := fun _ => outcome
    post := post
    write := write
    readMessage := "Unexpected end of JSON input" }

/-- The settings of the tests, fetching `members`, every POST and the write succeeding. -/
def testEnv (members : List Member) : Env :=
  sampleEnv (some "http://discord.mock/webhook") (.response (.characters members))
    (fun _ => none) none

/-! ## Lemmas on traces -/

theorem notifications_append (s t : List Event) :
    notifications (s ++ t) = notifications s ++ notifications t := by
  induction s with
  | nil => rfl
  | cons e s ih => cases e <;> simp [notifications, ih]

theorem posts_append (s t : List Event) : posts (s ++ t) = posts s ++ posts t := by
  induction s with
  | nil => rfl
  | cons e s ih => cases e <;> simp [posts, ih]

theorem writes_append (s t : List Event) : writes (s ++ t) = writes s ++ writes t := by
  induction s with
  | nil => rfl
  | cons e s ih => cases e <;> simp [writes, ih]

theorem snapshotReads_append (s t : List Event) :
    snapshotReads (s ++ t) = snapshotReads s + snapshotReads t := by
  induction s with
  | nil => simp [snapshotReads]
  | cons e s ih => cases e <;> simp [snapshotReads, ih] <;> omega

theorem notifications_sendDiscordWebhook (env : Env) (k : Nat) (content : String) :
    notifications (sendDiscordWebhook env k content) = [content] := by
  simp only [sendDiscordWebhook]
  cases webhookDisabled (getConfig env.processEnv).discordWebhookUrl <;>
    cases env.post k <;> simp [notifications]

theorem writes_sendDiscordWebhook (env : Env) (k : Nat) (content : String) :
    writes (sendDiscordWebhook env k content) = [] := by
  simp only [sendDiscordWebhook]
  cases webhookDisabled (getConfig env.processEnv).discordWebhookUrl <;>
    cases env.post k <;> simp [writes]

theorem snapshotReads_sendDiscordWebhook (env : Env) (k : Nat) (content : String) :
    snapshotReads (sendDiscordWebhook env k content) = 0 := by
  simp only [sendDiscordWebhook]
  cases webhookDisabled (getConfig env.processEnv).discordWebhookUrl <;>
    cases env.post k <;> simp [snapshotReads]

theorem posts_sendDiscordWebhook_disabled (env : Env) (k : Nat) (content : String)
    (h : webhookDisabled env.processEnv.DISCORD_WEBHOOK_URL = true) :
    posts (sendDiscordWebhook env k content) = [] := by
  simp [sendDiscordWebhook, getConfig, h, posts]

theorem posts_sendDiscordWebhook_enabled (env : Env) (k : Nat) (content : String) (u : String)
    (hu : env.processEnv.DISCORD_WEBHOOK_URL = some u) (h : webhookDisabled (some u) = false) :
    posts (sendDiscordWebhook env k content) = [(u, content)] := by
  simp only [sendDiscordWebhook, getConfig, hu, h]
  cases env.post k <;> simp [posts]

theorem notifications_sendEach (env : Env) (message : Member → String) (k : Nat)
    (members : List Member) :
    notifications (sendEach env message k members) = members.map message := by
  induction members generalizing k with
  | nil => rfl
  | cons m rest ih =>
    simp [sendEach, notifications_append, notifications_sendDiscordWebhook, ih]

theorem writes_sendEach (env : Env) (message : Member → String) (k : Nat)
    (members : List Member) : writes (sendEach env message k members) = [] := by
  induction members generalizing k with
  | nil => rfl
  | cons m rest ih => simp [sendEach, writes_append, writes_sendDiscordWebhook, ih]

theorem snapshotReads_sendEach (env : Env) (message : Member → String) (k : Nat)
    (members : List Member) : snapshotReads (sendEach env message k members) = 0 := by
  induction members generalizing k with
  | nil => rfl
  | cons m rest ih =>
    simp [sendEach, snapshotReads_append, snapshotReads_sendDiscordWebhook, ih]

theorem posts_sendEach_disabled (env : Env) (message : Member → String) (k : Nat)
    (members : List Member) (h : webhookDisabled env.processEnv.DISCORD_WEBHOOK_URL = true) :
    posts (sendEach env message k members) = [] := by
  induction members generalizing k with
  | nil => rfl
  | cons m rest ih =>
    simp [sendEach, posts_append, posts_sendDiscordWebhook_disabled env _ _ h, ih]

theorem posts_sendEach_enabled (env : Env) (message : Member → String) (k : Nat)
    (members : List Member) (u : String)
    (hu : env.processEnv.DISCORD_WEBHOOK_URL = some u) (h : webhookDisabled (some u) = false) :
    posts (sendEach env message k members) = members.map (fun m => (u, message m)) := by
  induction members generalizing k with
  | nil => rfl
  | cons m rest ih =>
    simp [sendEach, posts_append, posts_sendDiscordWebhook_enabled env _ _ u hu h, ih]

/-! ## Lemmas on the `Map` lookups -/

theorem any_setEntry (k a : Key) (v : String) (es : List (Key × String)) :
    (setEntry k v es).any (fun e => decide (e.1 = a))
      = (es.any (fun e => decide (e.1 = a)) || decide (k = a)) := by
  induction es with
  | nil => simp [setEntry]
  | cons e rest ih =>
    unfold setEntry
    by_cases h : e.1 = k
    · by_cases h2 : k = a <;> simp [h, h2]
    · simp [h, ih, Bool.or_assoc]

theorem has_foldl_set (pairs : List (Key × String)) (m : JsMap) (a : Key) :
    (pairs.foldl (fun m e => m.set e.1 e.2) m).has a
      = (m.has a || pairs.any (fun e => decide (e.1 = a))) := by
  induction pairs generalizing m with
  | nil => simp
  | cons p rest ih =>
    simp only [List.foldl_cons, ih, List.any_cons]
    simp [JsMap.has, JsMap.set, any_setEntry, Bool.or_assoc]

theorem has_memberMap (members : List Member) (a : Key) :
    (memberMap members).has a = decide (a ∈ ids members) := by
  unfold memberMap JsMap.ofPairs
  rw [has_foldl_set]
  simp only [JsMap.has, List.any_nil, Bool.false_or, ids]
  induction members with
  | nil => simp
  | cons m rest ih =>
    simp only [List.map_cons, List.any_cons, ih, List.mem_cons]
    by_cases h : m.character_id = a
    · simp [h]
    · have h2 : ¬ a = m.character_id := fun e => h e.symm
      simp [h, h2]

theorem joined_eq_filter (currentMembers previousMembers : List Member) :
    joined currentMembers previousMembers
      = currentMembers.filter (fun m => decide (m.character_id ∉ ids previousMembers)) := by
  unfold joined
  congr 1
  funext m
  simp [has_memberMap]

theorem left_eq_filter (currentMembers previousMembers : List Member) :
    left currentMembers previousMembers
      = previousMembers.filter (fun m => decide (m.character_id ∉ ids currentMembers)) := by
  unfold left
  congr 1
  funext m
  simp [has_memberMap]

/-! ## The three paths of `checkMembers` -/

theorem trace_fetchMembers (env : Env) (corpId : String) :
    notifications (fetchMembers env corpId).2 = [] ∧ posts (fetchMembers env corpId).2 = []
      ∧ writes (fetchMembers env corpId).2 = [] ∧ snapshotReads (fetchMembers env corpId).2 = 0 := by
  simp only [fetchMembers]
  cases env.get ("https://evewho.com/api/corplist/" ++ corpId) with
  | throws message => simp [notifications, posts, writes, snapshotReads]
  | response data => cases data <;> simp [notifications, posts, writes, snapshotReads]

theorem fetchMembers_eq_none_iff (env : Env) (corpId : String) :
    (fetchMembers env corpId).1 = none
      ↔ ∃ message, env.get ("https://evewho.com/api/corplist/" ++ corpId) = .throws message := by
  simp only [fetchMembers]
  cases env.get ("https://evewho.com/api/corplist/" ++ corpId) with
  | throws message => simp
  | response data => cases data <;> simp

theorem trace_loadPreviousMembers (env : Env) (file : FileState) :
    notifications (loadPreviousMembers env file).2 = []
      ∧ posts (loadPreviousMembers env file).2 = []
      ∧ writes (loadPreviousMembers env file).2 = []
      ∧ 1 ≤ snapshotReads (loadPreviousMembers env file).2 := by
  cases file <;> simp [loadPreviousMembers, notifications, posts, writes, snapshotReads]

theorem trace_saveMembers (env : Env) (file : FileState) (members : List Member) :
    notifications (saveMembers env file members).2 = []
      ∧ posts (saveMembers env file members).2 = []
      ∧ writes (saveMembers env file members).2 = [members]
      ∧ snapshotReads (saveMembers env file members).2 = 0 := by
  simp only [saveMembers]
  cases env.write <;> simp [notifications, posts, writes, snapshotReads]

theorem file_saveMembers (env : Env) (file : FileState) (members : List Member)
    (hwrite : env.write = none) : (saveMembers env file members).1 = .roster members := by
  simp [saveMembers, hwrite]

/-- The events of one notification loop of `checkMembers`, with its leading log line. -/
theorem notifications_loop (env : Env) (message : Member → String) (k : Nat) (line : String)
    (members : List Member) :
    notifications
        (if members.length > 0 then Event.log line :: sendEach env message k members else [])
      = members.map message := by
  cases members with
  | nil => simp [notifications]
  | cons m rest => simp [notifications, notifications_sendEach]

theorem writes_loop (env : Env) (message : Member → String) (k : Nat) (line : String)
    (members : List Member) :
    writes (if members.length > 0 then Event.log line :: sendEach env message k members else [])
      = [] := by
  cases members with
  | nil => simp [writes]
  | cons m rest => simp [writes, writes_sendEach]

theorem posts_loop_disabled (env : Env) (message : Member → String) (k : Nat) (line : String)
    (members : List Member) (h : webhookDisabled env.processEnv.DISCORD_WEBHOOK_URL = true) :
    posts (if members.length > 0 then Event.log line :: sendEach env message k members else [])
      = [] := by
  cases members with
  | nil => simp [posts]
  | cons m rest => simp [posts, posts_sendEach_disabled env _ _ _ h]

theorem posts_loop_enabled (env : Env) (message : Member → String) (k : Nat) (line : String)
    (members : List Member) (u : String)
    (hu : env.processEnv.DISCORD_WEBHOOK_URL = some u) (h : webhookDisabled (some u) = false) :
    posts (if members.length > 0 then Event.log line :: sendEach env message k members else [])
      = members.map (fun m => (u, message m)) := by
  cases members with
  | nil => simp [posts]
  | cons m rest => simp [posts, posts_sendEach_enabled env _ _ _ u hu h]

/-- Path 1: the fetch returned `null`. -/
theorem checkMembers_fetch_failed (env : Env) (file : FileState)
    (hfetch : (fetchMembers env (getConfig env.processEnv).corpId).1 = none) :
    checkMembers env file
      = (file,
          [Event.log ("Checking members for corp " ++ (getConfig env.processEnv).corpId ++ "...")]
            ++ (fetchMembers env (getConfig env.processEnv).corpId).2
            ++ [Event.log "Failed to fetch members, skipping this check."]) := by
  simp only [checkMembers, hfetch]

/-- Path 2: the fetch returned a roster and there is no snapshot file. -/
theorem checkMembers_first_run (env : Env) (file : FileState) (currentMembers : List Member)
    (hfetch : (fetchMembers env (getConfig env.processEnv).corpId).1 = some currentMembers)
    (hload : (loadPreviousMembers env file).1 = none) :
    checkMembers env file
      = ((saveMembers env file currentMembers).1,
          [Event.log ("Checking members for corp " ++ (getConfig env.processEnv).corpId ++ "...")]
            ++ (fetchMembers env (getConfig env.processEnv).corpId).2
            ++ (loadPreviousMembers env file).2
            ++ [Event.log "First run. saving current member list."]
            ++ (saveMembers env file currentMembers).2) := by
  simp only [checkMembers, hfetch, hload]

/-- Path 3: the fetch returned a roster and a snapshot was loaded. -/
theorem checkMembers_diff (env : Env) (file : FileState) (currentMembers previousMembers : List Member)
    (hfetch : (fetchMembers env (getConfig env.processEnv).corpId).1 = some currentMembers)
    (hload : (loadPreviousMembers env file).1 = some previousMembers) :
    checkMembers env file
      = if (joined currentMembers previousMembers).length > 0
            ∨ (left currentMembers previousMembers).length > 0 then
          ((saveMembers env file currentMembers).1,
            diffTrace env file currentMembers previousMembers
              ++ (saveMembers env file currentMembers).2)
        else
          (file,
            diffTrace env file currentMembers previousMembers
              ++ [Event.log "No changes detected."]) := by
  simp only [checkMembers, hfetch, hload, diffTrace]

theorem notifications_diffTrace (env : Env) (file : FileState) (C P : List Member) :
    notifications (diffTrace env file C P)
      = (joined C P).map joinedMessage ++ (left C P).map leftMessage := by
  simp only [diffTrace, notifications_append, notifications_loop,
    (trace_fetchMembers env _).1, (trace_loadPreviousMembers env file).1]
  simp [notifications]

theorem writes_diffTrace (env : Env) (file : FileState) (C P : List Member) :
    writes (diffTrace env file C P) = [] := by
  simp only [diffTrace, writes_append, writes_loop,
    (trace_fetchMembers env _).2.2.1, (trace_loadPreviousMembers env file).2.2.1]
  simp [writes]

theorem posts_diffTrace_disabled (env : Env) (file : FileState) (C P : List Member)
    (h : webhookDisabled env.processEnv.DISCORD_WEBHOOK_URL = true) :
    posts (diffTrace env file C P) = [] := by
  simp only [diffTrace, posts_append, posts_loop_disabled env _ _ _ _ h,
    (trace_fetchMembers env _).2.1, (trace_loadPreviousMembers env file).2.1]
  simp [posts]

theorem posts_diffTrace_enabled (env : Env) (file : FileState) (C P : List Member) (u : String)
    (hu : env.processEnv.DISCORD_WEBHOOK_URL = some u) (h : webhookDisabled (some u) = false) :
    posts (diffTrace env file C P)
      = ((joined C P).map joinedMessage ++ (left C P).map leftMessage).map (fun c => (u, c)) := by
  simp only [diffTrace, posts_append, posts_loop_enabled env _ _ _ _ u hu h,
    (trace_fetchMembers env _).2.1, (trace_loadPreviousMembers env file).2.1]
  simp [posts, Function.comp_def]

/-- What a cycle on path 3 shows: the messages handed to `sendDiscordWebhook`. -/
theorem notifications_checkMembers_diff (env : Env) (file : FileState) (C P : List Member)
    (hfetch : (fetchMembers env (getConfig env.processEnv).corpId).1 = some C)
    (hload : (loadPreviousMembers env file).1 = some P) :
    notifications (checkMembers env file).2
      = (joined C P).map joinedMessage ++ (left C P).map leftMessage := by
  rw [checkMembers_diff env file C P hfetch hload]
  split
  · rw [notifications_append, notifications_diffTrace, (trace_saveMembers env file C).1]
    simp
  · rw [notifications_append, notifications_diffTrace]
    simp [notifications]

theorem changed_iff (C P : List Member) :
    ((joined C P).length > 0 ∨ (left C P).length > 0) ↔ (joined C P ≠ [] ∨ left C P ≠ []) := by
  simp [List.length_pos]

theorem writes_checkMembers_diff (env : Env) (file : FileState) (C P : List Member)
    (hfetch : (fetchMembers env (getConfig env.processEnv).corpId).1 = some C)
    (hload : (loadPreviousMembers env file).1 = some P) :
    writes (checkMembers env file).2 = if joined C P ≠ [] ∨ left C P ≠ [] then [C] else [] := by
  rw [checkMembers_diff env file C P hfetch hload]
  simp only [changed_iff]
  split
  · rw [writes_append, writes_diffTrace, (trace_saveMembers env file C).2.2.1]
    simp
  · rw [writes_append, writes_diffTrace]
    simp [writes]

theorem file_checkMembers_diff (env : Env) (file : FileState) (C P : List Member)
    (hfetch : (fetchMembers env (getConfig env.processEnv).corpId).1 = some C)
    (hload : (loadPreviousMembers env file).1 = some P) :
    (checkMembers env file).1
      = if joined C P ≠ [] ∨ left C P ≠ [] then (saveMembers env file C).1 else file := by
  rw [checkMembers_diff env file C P hfetch hload]
  simp only [changed_iff]
  split <;> rfl

theorem posts_checkMembers_diff_disabled (env : Env) (file : FileState) (C P : List Member)
    (hfetch : (fetchMembers env (getConfig env.processEnv).corpId).1 = some C)
    (hload : (loadPreviousMembers env file).1 = some P)
    (h : webhookDisabled env.processEnv.DISCORD_WEBHOOK_URL = true) :
    posts (checkMembers env file).2 = [] := by
  rw [checkMembers_diff env file C P hfetch hload]
  split
  · rw [posts_append, posts_diffTrace_disabled env file C P h, (trace_saveMembers env file C).2.1]
    simp
  · rw [posts_append, posts_diffTrace_disabled env file C P h]
    simp [posts]

theorem posts_checkMembers_diff_enabled (env : Env) (file : FileState) (C P : List Member)
    (u : String)
    (hfetch : (fetchMembers env (getConfig env.processEnv).corpId).1 = some C)
    (hload : (loadPreviousMembers env file).1 = some P)
    (hu : env.processEnv.DISCORD_WEBHOOK_URL = some u) (h : webhookDisabled (some u) = false) :
    posts (checkMembers env file).2
      = ((joined C P).map joinedMessage ++ (left C P).map leftMessage).map (fun c => (u, c)) := by
  rw [checkMembers_diff env file C P hfetch hload]
  split
  · rw [posts_append, posts_diffTrace_enabled env file C P u hu h,
      (trace_saveMembers env file C).2.1]
    simp
  · rw [posts_append, posts_diffTrace_enabled env file C P u hu h]
    simp [posts]

/-- Two rosters with the same ids have an empty diff. -/
theorem diff_nil_of_same_ids (C P : List Member) (h : ∀ k, k ∈ ids P ↔ k ∈ ids C) :
    joined C P = [] ∧ left C P = [] := by
  rw [joined_eq_filter, left_eq_filter]
  constructor
  · rw [List.filter_eq_nil_iff]
    intro m hm
    have : m.character_id ∈ ids P := (h _).2 (List.mem_map_of_mem _ hm)
    simpa using this
  · rw [List.filter_eq_nil_iff]
    intro m hm
    have : m.character_id ∈ ids C := (h _).1 (List.mem_map_of_mem _ hm)
    simpa using this

theorem joined_nil_previous (C : List Member) : joined C [] = C := by
  rw [joined_eq_filter]
  simp [ids]

theorem left_nil_previous (C : List Member) : left C [] = [] := rfl

theorem joined_nil_current (P : List Member) : joined [] P = [] := rfl

theorem left_nil_current (P : List Member) : left [] P = P := by
  rw [left_eq_filter]
  simp [ids]

theorem joined_self (R : List Member) : joined R R = [] := (diff_nil_of_same_ids R R fun _ => Iff.rfl).1

theorem left_self (R : List Member) : left R R = [] := (diff_nil_of_same_ids R R fun _ => Iff.rfl).2

/-- Every cycle whose fetch returned a roster looks at the snapshot file. -/
theorem snapshotReads_checkMembers_pos (env : Env) (file : FileState) (C : List Member)
    (hfetch : (fetchMembers env (getConfig env.processEnv).corpId).1 = some C) :
    1 ≤ snapshotReads (checkMembers env file).2 := by
  have hl := (trace_loadPreviousMembers env file).2.2.2
  cases hload : (loadPreviousMembers env file).1 with
  | none =>
    rw [checkMembers_first_run env file C hfetch hload]
    simp only [snapshotReads_append]
    omega
  | some P =>
    rw [checkMembers_diff env file C P hfetch hload]
    split <;> simp only [diffTrace, snapshotReads_append] <;> omega

/-- With the webhook disabled no cycle issues a POST. -/
theorem posts_checkMembers_disabled (env : Env) (file : FileState)
    (h : webhookDisabled env.processEnv.DISCORD_WEBHOOK_URL = true) :
    posts (checkMembers env file).2 = [] := by
  have hf := trace_fetchMembers env (getConfig env.processEnv).corpId
  have hl := trace_loadPreviousMembers env file
  cases hfetch : (fetchMembers env (getConfig env.processEnv).corpId).1 with
  | none =>
    rw [checkMembers_fetch_failed env file hfetch]
    simp [posts_append, hf.2.1, posts]
  | some C =>
    cases hload : (loadPreviousMembers env file).1 with
    | none =>
      rw [checkMembers_first_run env file C hfetch hload]
      simp [posts_append, hf.2.1, hl.2.1, (trace_saveMembers env file C).2.1, posts]
    | some P => exact posts_checkMembers_diff_disabled env file C P hfetch hload h

/-- A cycle on path 3 that finds no change does nothing to the outside. -/
theorem checkMembers_unchanged (env : Env) (file : FileState) (C P : List Member)
    (hfetch : (fetchMembers env (getConfig env.processEnv).corpId).1 = some C)
    (hload : (loadPreviousMembers env file).1 = some P)
    (hj : joined C P = []) (hl : left C P = []) :
    notifications (checkMembers env file).2 = []
      ∧ posts (checkMembers env file).2 = []
      ∧ writes (checkMembers env file).2 = []
      ∧ (checkMembers env file).1 = file := by
  have h1 := trace_fetchMembers env (getConfig env.processEnv).corpId
  have h2 := trace_loadPreviousMembers env file
  refine ⟨?_, ?_, ?_, ?_⟩
  · rw [notifications_checkMembers_diff env file C P hfetch hload, hj, hl]
    rfl
  · rw [checkMembers_diff env file C P hfetch hload]
    simp [diffTrace, posts_append, h1.2.1, h2.2.1, posts, hj, hl]
  · rw [writes_checkMembers_diff env file C P hfetch hload]
    simp [hj, hl]
  · rw [file_checkMembers_diff env file C P hfetch hload]
    simp [hj, hl]

/-- A cycle on path 3 that finds a change makes one write, of the fetched roster. -/
theorem checkMembers_changed (env : Env) (file : FileState) (C P : List Member)
    (hfetch : (fetchMembers env (getConfig env.processEnv).corpId).1 = some C)
    (hload : (loadPreviousMembers env file).1 = some P)
    (hchanged : joined C P ≠ [] ∨ left C P ≠ []) :
    writes (checkMembers env file).2 = [C]
      ∧ (env.write = none → (checkMembers env file).1 = .roster C) := by
  rw [writes_checkMembers_diff env file C P hfetch hload,
    file_checkMembers_diff env file C P hfetch hload, if_pos hchanged, if_pos hchanged]
  exact ⟨rfl, fun hwrite => file_saveMembers env file C hwrite⟩

theorem sendDiscordWebhook_disabled (env : Env) (k : Nat) (content : String)
    (h : webhookDisabled env.processEnv.DISCORD_WEBHOOK_URL = true) :
    sendDiscordWebhook env k content
      = [Event.sendDiscordWebhook content,
          Event.log ("Discord Webhook URL not configured, skipping notification: " ++ content)] := by
  simp [sendDiscordWebhook, getConfig, h]

/-! ## The `Map` keeps one entry per id, the last name written -/

theorem find_setEntry (k a : Key) (v : String) (es : List (Key × String)) :
    (setEntry k v es).find? (fun e => decide (e.1 = a))
      = if k = a then some (k, v) else es.find? (fun e => decide (e.1 = a)) := by
  induction es with
  | nil => by_cases h : k = a <;> simp [setEntry, h]
  | cons e rest ih =>
    unfold setEntry
    by_cases h : e.1 = k
    · by_cases h2 : k = a
      · simp [h, h2]
      · have h3 : ¬ e.1 = a := fun e3 => h2 (h ▸ e3)
        simp [h, h2, h3]
    · by_cases h2 : e.1 = a
      · have h3 : ¬ k = a := fun e3 => h (h2.trans e3.symm)
        have h4 : ¬ a = k := fun e4 => h3 e4.symm
        simp [h2, h3, h4]
      · simp [h, h2, ih]

theorem get_set (m : JsMap) (k a : Key) (v : String) :
    (m.set k v).get a = if k = a then some v else m.get a := by
  simp only [JsMap.get, JsMap.set, find_setEntry]
  by_cases h : k = a <;> simp [h]

theorem get_foldl_set_of_not_mem (pairs : List (Key × String)) (m : JsMap) (a : Key)
    (h : a ∉ pairs.map Prod.fst) :
    (pairs.foldl (fun m e => m.set e.1 e.2) m).get a = m.get a := by
  induction pairs generalizing m with
  | nil => rfl
  | cons p rest ih =>
    simp only [List.map_cons, List.mem_cons, not_or] at h
    rw [List.foldl_cons, ih _ h.2, get_set]
    have : ¬ p.1 = a := fun e => h.1 e.symm
    simp [this]

theorem get_memberMap_last (pre post : List Member) (m : Member)
    (h : m.character_id ∉ ids post) :
    (memberMap (pre ++ m :: post)).get m.character_id = some m.name := by
  unfold memberMap JsMap.ofPairs
  rw [List.map_append, List.map_cons, List.foldl_append, List.foldl_cons,
    get_foldl_set_of_not_mem, get_set]
  · simp
  · simpa [ids, Function.comp_def] using h

theorem keys_setEntry (k : Key) (v : String) (es : List (Key × String)) :
    (setEntry k v es).map Prod.fst
      = if k ∈ es.map Prod.fst then es.map Prod.fst else es.map Prod.fst ++ [k] := by
  induction es with
  | nil => simp [setEntry]
  | cons e rest ih =>
    unfold setEntry
    by_cases h : e.1 = k
    · simp [h]
    · have h2 : ¬ k = e.1 := fun e2 => h e2.symm
      by_cases h3 : k ∈ rest.map Prod.fst
      · simp only [h, if_false, List.map_cons, ih, h3, if_true, List.mem_cons, or_true]
      · simp only [h, if_false, List.map_cons, ih, h3, List.mem_cons, h2, or_self,
          List.cons_append]

theorem nodup_keys_foldl_set (pairs : List (Key × String)) (m : JsMap)
    (h : (m.entries.map Prod.fst).Nodup) :
    ((pairs.foldl (fun m e => m.set e.1 e.2) m).entries.map Prod.fst).Nodup := by
  induction pairs generalizing m with
  | nil => exact h
  | cons p rest ih =>
    rw [List.foldl_cons]
    apply ih
    simp only [JsMap.set, keys_setEntry]
    split
    · exact h
    · next hk =>
      rw [List.nodup_append]
      refine ⟨h, List.nodup_singleton _, ?_⟩
      simpa using hk

theorem nodup_keys_memberMap (members : List Member) :
    ((memberMap members).entries.map Prod.fst).Nodup :=
  nodup_keys_foldl_set _ _ List.nodup_nil

theorem filter_id_joined (C P : List Member) (i : Key) (h : i ∉ ids P) :
    (joined C P).filter (fun m => decide (m.character_id = i))
      = C.filter (fun m => decide (m.character_id = i)) := by
  rw [joined_eq_filter, List.filter_filter]
  congr 1
  funext m
  by_cases hm : m.character_id = i
  · simp [hm, h]
  · simp [hm]

theorem filter_id_left (C P : List Member) (i : Key) (h : i ∉ ids C) :
    (left C P).filter (fun m => decide (m.character_id = i))
      = P.filter (fun m => decide (m.character_id = i)) := by
  rw [left_eq_filter, List.filter_filter]
  congr 1
  funext m
  by_cases hm : m.character_id = i
  · simp [hm, h]
  · simp [hm]

/-! ## The claims -/

/-- C1 (fetch-failure isolation): whatever the snapshot file and the webhook configuration,
when `fetchMembers` returns `null` the cycle leaves the snapshot file exactly as it was,
hands no message to `sendDiscordWebhook`, issues no POST, and makes no `existsSync`,
`readFileSync` or `writeFileSync` call on the snapshot. -/
theorem C1_fetch_failure_isolation (env : Env) (file : FileState)
    (hfetch : (fetchMembers env (getConfig env.processEnv).corpId).1 = none) :
    (checkMembers env file).1 = file
      ∧ notifications (checkMembers env file).2 = []
      ∧ posts (checkMembers env file).2 = []
      ∧ snapshotReads (checkMembers env file).2 = 0
      ∧ writes (checkMembers env file).2 = [] := by
  rw [checkMembers_fetch_failed env file hfetch]
  have h := trace_fetchMembers env (getConfig env.processEnv).corpId
  refine ⟨rfl, ?_, ?_, ?_, ?_⟩
  · simp [notifications_append, h.1, notifications]
  · simp [posts_append, h.2.1, posts]
  · simp [snapshotReads_append, h.2.2.2, snapshotReads]
  · simp [writes_append, h.2.2.1, writes]

/-- C1 at a refused connection, with a snapshot of Alice and Bob and a configured webhook. -/
theorem C1_fetch_failure_isolation_witness :
    (fetchMembers
        (sampleEnv (some "http://discord.mock/webhook") (.throws "connect ECONNREFUSED")
          (fun _ => none) none)
        "98735707").1 = none
      ∧ (checkMembers
          (sampleEnv (some "http://discord.mock/webhook") (.throws "connect ECONNREFUSED")
            (fun _ => none) none)
          (.roster [alice, bob])).1 = .roster [alice, bob] :=
  ⟨rfl,
    (C1_fetch_failure_isolation
      (sampleEnv (some "http://discord.mock/webhook") (.throws "connect ECONNREFUSED")
        (fun _ => none) none)
      (.roster [alice, bob]) rfl).1⟩

/-- C2 (first run), as the code has it: for every `N` and every fetched roster of `N`
members, when there is no snapshot file the cycle hands no message to `sendDiscordWebhook`,
issues no POST, and makes exactly one write, of the fetched roster itself; provided that
write returns, the snapshot file after the cycle holds the fetched roster, all `N` members
in the fetched order. -/
theorem C2_first_run (env : Env) (N : Nat) (roster : List Member)
    (hN : roster.length = N)
    (hfetch : (fetchMembers env (getConfig env.processEnv).corpId).1 = some roster) :
    notifications (checkMembers env .absent).2 = []
      ∧ posts (checkMembers env .absent).2 = []
      ∧ writes (checkMembers env .absent).2 = [roster]
      ∧ (env.write = none →
          (checkMembers env .absent).1 = .roster roster
            ∧ ∃ saved, (checkMembers env .absent).1 = .roster saved ∧ saved.length = N) := by
  rw [checkMembers_first_run env .absent roster hfetch rfl]
  have hf := trace_fetchMembers env (getConfig env.processEnv).corpId
  have hl := trace_loadPreviousMembers env .absent
  have hs := trace_saveMembers env .absent roster
  refine ⟨?_, ?_, ?_, ?_⟩
  · simp [notifications_append, hf.1, hl.1, hs.1, notifications]
  · simp [posts_append, hf.2.1, hl.2.1, hs.2.1, posts]
  · simp [writes_append, hf.2.2.1, hl.2.2.1, hs.2.2.1, writes]
  · intro hwrite
    exact ⟨file_saveMembers env .absent roster hwrite,
      roster, file_saveMembers env .absent roster hwrite, hN⟩

/-- C2 on scenario 1 of the tests: no snapshot, Alice and Bob fetched. -/
theorem C2_first_run_witness :
    [alice, bob].length = 2
      ∧ (fetchMembers (testEnv [alice, bob]) (getConfig (testEnv [alice, bob]).processEnv).corpId).1
          = some [alice, bob]
      ∧ notifications (checkMembers (testEnv [alice, bob]) .absent).2 = []
      ∧ (checkMembers (testEnv [alice, bob]) .absent).1 = .roster [alice, bob] :=
  ⟨rfl, rfl, (C2_first_run (testEnv [alice, bob]) 2 [alice, bob] rfl rfl).1,
    ((C2_first_run (testEnv [alice, bob]) 2 [alice, bob] rfl rfl).2.2.2 rfl).1⟩

/-- C2 as stated fails: there is no snapshot file, Alice and Bob are fetched, and
`writeFileSync` throws (the data directory is missing).  `saveMembers` catches the error and
logs it: no message is handed to `sendDiscordWebhook`, the one write of the fetched roster is
attempted, and the snapshot after the cycle is still absent, not the fetched roster. -/
theorem C2_first_run_counterexample :
    (fetchMembers
        (sampleEnv (some "http://discord.mock/webhook") (.response (.characters [alice, bob]))
          (fun _ => none) (some "ENOENT: no such file or directory, open"))
        "98735707").1 = some [alice, bob]
      ∧ ¬ (checkMembers
            (sampleEnv (some "http://discord.mock/webhook")
              (.response (.characters [alice, bob])) (fun _ => none)
              (some "ENOENT: no such file or directory, open"))
            .absent).1 = .roster [alice, bob]
      ∧ checkMembers
          (sampleEnv (some "http://discord.mock/webhook") (.response (.characters [alice, bob]))
            (fun _ => none) (some "ENOENT: no such file or directory, open"))
          .absent
        = (.absent,
            [.log "Checking members for corp 98735707...",
             .httpGet "https://evewho.com/api/corplist/98735707",
             .existsSync,
             .log "First run. saving current member list.",
             .writeFile [alice, bob],
             .error "Error saving members file: ENOENT: no such file or directory, open"]) := by
  refine ⟨rfl, ?_, ?_⟩ <;> decide

/-- C3 (diff definition): `joined` is the current roster filtered, in its order, to the
members whose id is the id of no snapshot member, and `left` is the snapshot filtered, in its
order, to the members whose id is the id of no current member; for the snapshot Alice(1),
Bob(2), Charlie(3) and the roster Alice(1), Charlie(3), `joined` is empty and `left` is
Bob(2) alone. -/
theorem C3_diff_definition (C P : List Member) :
    joined C P = C.filter (fun m => decide (∀ p ∈ P, p.character_id ≠ m.character_id))
      ∧ left C P = P.filter (fun m => decide (∀ c ∈ C, c.character_id ≠ m.character_id))
      ∧ (joined C P).Sublist C ∧ (left C P).Sublist P
      ∧ joined [alice, charlie] [alice, bob, charlie] = []
      ∧ left [alice, charlie] [alice, bob, charlie] = [bob] := by
  refine ⟨?_, ?_, ?_, ?_, by decide, by decide⟩
  · rw [joined_eq_filter]
    congr 1
    funext m
    simp only [ids, List.mem_map, decide_eq_decide]
    constructor
    · intro h p hp e
      exact h ⟨p, hp, e⟩
    · rintro h ⟨p, hp, e⟩
      exact h p hp e
  · rw [left_eq_filter]
    congr 1
    funext m
    simp only [ids, List.mem_map, decide_eq_decide]
    constructor
    · intro h p hp e
      exact h ⟨p, hp, e⟩
    · rintro h ⟨p, hp, e⟩
      exact h p hp e
  · rw [joined_eq_filter]
    exact List.filter_sublist _
  · rw [left_eq_filter]
    exact List.filter_sublist _

/-- C4 (notification sequence): in a cycle with a successful fetch and a loaded snapshot, the
messages handed to `sendDiscordWebhook` are one joined-message per member of `joined`, in
order, then one left-message per member of `left`, in order; the sequence is the same under
any other outcomes of the POSTs; with a configured webhook every one of these messages is
POSTed, in that order, whichever POSTs fail; and for the snapshot Alice, Bob and the fetched
roster Alice, Bob, Charlie it is the single message naming Charlie. -/
theorem C4_notification_sequence (env : Env) (file : FileState) (C P : List Member)
    (hfetch : (fetchMembers env (getConfig env.processEnv).corpId).1 = some C)
    (hload : (loadPreviousMembers env file).1 = some P) :
    notifications (checkMembers env file).2
        = (joined C P).map (fun m => "**" ++ m.name ++ "** has joined the corporation.")
          ++ (left C P).map (fun m => "**" ++ m.name ++ "** has left the corporation.")
      ∧ (∀ post2 : Nat → Option String,
          notifications (checkMembers { env with post := post2 } file).2
            = notifications (checkMembers env file).2)
      ∧ (∀ u, env.processEnv.DISCORD_WEBHOOK_URL = some u → u ≠ "" →
          u ≠ "your_webhook_url_here" →
          posts (checkMembers env file).2
            = (notifications (checkMembers env file).2).map (fun c => (u, c)))
      ∧ notifications (checkMembers (testEnv [alice, bob, charlie]) (.roster [alice, bob])).2
          = ["**Charlie** has joined the corporation."] := by
  have hn := notifications_checkMembers_diff env file C P hfetch hload
  refine ⟨hn, ?_, ?_, by decide⟩
  · intro post2
    rw [hn]
    exact notifications_checkMembers_diff { env with post := post2 } file C P hfetch hload
  · intro u hu h1 h2
    rw [hn]
    exact posts_checkMembers_diff_enabled env file C P u hfetch hload hu
      (by simp [webhookDisabled, h1, h2])

/-- C4 on scenario 4 of the tests, every POST failing: Bob has left. -/
theorem C4_notification_sequence_witness :
    (fetchMembers
        (sampleEnv (some "http://discord.mock/webhook") (.response (.characters [alice, charlie]))
          (fun _ => some "Request failed with status code 500") none)
        "98735707").1 = some [alice, charlie]
      ∧ notifications
          (checkMembers
            (sampleEnv (some "http://discord.mock/webhook")
              (.response (.characters [alice, charlie]))
              (fun _ => some "Request failed with status code 500") none)
            (.roster [alice, bob, charlie])).2
        = (joined [alice, charlie] [alice, bob, charlie]).map
            (fun m => "**" ++ m.name ++ "** has joined the corporation.")
          ++ (left [alice, charlie] [alice, bob, charlie]).map
            (fun m => "**" ++ m.name ++ "** has left the corporation.") :=
  ⟨rfl,
    (C4_notification_sequence
      (sampleEnv (some "http://discord.mock/webhook") (.response (.characters [alice, charlie]))
        (fun _ => some "Request failed with status code 500") none)
      (.roster [alice, bob, charlie]) [alice, charlie] [alice, bob, charlie] rfl rfl).1⟩

/-- C5 (persist if and only if changed): in a cycle with a successful fetch of `C` and a
loaded snapshot `P`, whatever the outcomes of the POSTs: when `joined` or `left` is non-empty
the cycle makes exactly one write, of `C`, and once that write has returned the snapshot
file holds `C`; when both are empty it makes no write and the file is as it was; and when
`P` and `C` have the same ids no message is handed to `sendDiscordWebhook`, nothing is
POSTed, no write is made and the file is as it was. -/
theorem C5_persist_iff_changed (env : Env) (file : FileState) (C P : List Member)
    (hfetch : (fetchMembers env (getConfig env.processEnv).corpId).1 = some C)
    (hload : (loadPreviousMembers env file).1 = some P) :
    ((joined C P ≠ [] ∨ left C P ≠ []) →
        writes (checkMembers env file).2 = [C]
          ∧ (env.write = none → (checkMembers env file).1 = .roster C))
      ∧ ((joined C P = [] ∧ left C P = []) →
          writes (checkMembers env file).2 = [] ∧ (checkMembers env file).1 = file)
      ∧ ((∀ k, k ∈ ids P ↔ k ∈ ids C) →
          notifications (checkMembers env file).2 = []
            ∧ posts (checkMembers env file).2 = []
            ∧ writes (checkMembers env file).2 = []
            ∧ (checkMembers env file).1 = file) := by
  have hw := writes_checkMembers_diff env file C P hfetch hload
  have hf := file_checkMembers_diff env file C P hfetch hload
  have hn := notifications_checkMembers_diff env file C P hfetch hload
  have key : (joined C P = [] ∧ left C P = []) →
      writes (checkMembers env file).2 = [] ∧ (checkMembers env file).1 = file := by
    rintro ⟨hj, hl⟩
    rw [hw, hf]
    simp [hj, hl]
  refine ⟨?_, key, ?_⟩
  · intro hchanged
    rw [hw, hf, if_pos hchanged, if_pos hchanged]
    exact ⟨rfl, fun hwrite => file_saveMembers env file C hwrite⟩
  · intro hsame
    have hd := diff_nil_of_same_ids C P hsame
    refine ⟨?_, ?_, (key hd).1, (key hd).2⟩
    · rw [hn, hd.1, hd.2]
      rfl
    · rw [checkMembers_diff env file C P hfetch hload]
      have h1 := trace_fetchMembers env (getConfig env.processEnv).corpId
      have h2 := trace_loadPreviousMembers env file
      simp [diffTrace, posts_append, h1.2.1, h2.2.1, posts, hd.1, hd.2]

/-- C5 on scenario 2 of the tests: snapshot and roster are both Alice, Bob. -/
theorem C5_persist_iff_changed_witness :
    (fetchMembers (testEnv [alice, bob]) "98735707").1 = some [alice, bob]
      ∧ (loadPreviousMembers (testEnv [alice, bob]) (.roster [alice, bob])).1 = some [alice, bob]
      ∧ (∀ k, k ∈ ids [alice, bob] ↔ k ∈ ids [alice, bob])
      ∧ notifications (checkMembers (testEnv [alice, bob]) (.roster [alice, bob])).2 = []
      ∧ posts (checkMembers (testEnv [alice, bob]) (.roster [alice, bob])).2 = []
      ∧ writes (checkMembers (testEnv [alice, bob]) (.roster [alice, bob])).2 = []
      ∧ (checkMembers (testEnv [alice, bob]) (.roster [alice, bob])).1 = .roster [alice, bob] :=
  ⟨rfl, rfl, fun _ => Iff.rfl,
    (C5_persist_iff_changed (testEnv [alice, bob]) (.roster [alice, bob]) [alice, bob]
      [alice, bob] rfl rfl).2.2 (fun _ => Iff.rfl)⟩

/-- C6 (malformed payload), as the code has it: a response whose body is falsy or has no
truthy `characters` makes `fetchMembers` return the empty roster, not `null`, and the cycle
goes on: the snapshot file is looked at; with no snapshot file the cycle hands no message to
`sendDiscordWebhook` and makes one write, of the empty roster; with a loaded snapshot `P` it
hands over one left-message per member of `P`, in order, and, when `P` is non-empty, makes
one write, of the empty roster (with `P` empty it makes no write and the file is as it
was). -/
theorem C6_malformed_payload_is_empty_roster (env : Env) (file : FileState) (data : Body)
    (hget : env.get ("https://evewho.com/api/corplist/" ++ (getConfig env.processEnv).corpId)
      = .response data)
    (hdata : data = .noCharacters ∨ data = .falsy) :
    (fetchMembers env (getConfig env.processEnv).corpId).1 = some []
      ∧ 1 ≤ snapshotReads (checkMembers env file).2
      ∧ (file = .absent →
          notifications (checkMembers env file).2 = []
            ∧ writes (checkMembers env file).2 = [[]]
            ∧ (env.write = none → (checkMembers env file).1 = .roster []))
      ∧ (∀ P, (loadPreviousMembers env file).1 = some P →
          notifications (checkMembers env file).2
              = P.map (fun m => "**" ++ m.name ++ "** has left the corporation.")
            ∧ (P ≠ [] →
                writes (checkMembers env file).2 = [[]]
                  ∧ (env.write = none → (checkMembers env file).1 = .roster []))
            ∧ (P = [] →
                writes (checkMembers env file).2 = [] ∧ (checkMembers env file).1 = file)) := by
  have hfetch : (fetchMembers env (getConfig env.processEnv).corpId).1 = some [] := by
    rcases hdata with h | h <;> simp [fetchMembers, hget, h]
  refine ⟨hfetch, snapshotReads_checkMembers_pos env file [] hfetch, ?_, ?_⟩
  · intro hfile
    subst hfile
    rw [checkMembers_first_run env .absent [] hfetch rfl]
    have hf := trace_fetchMembers env (getConfig env.processEnv).corpId
    have hl := trace_loadPreviousMembers env .absent
    have hs := trace_saveMembers env .absent []
    refine ⟨?_, ?_, fun hwrite => file_saveMembers env .absent [] hwrite⟩
    · simp [notifications_append, hf.1, hl.1, hs.1, notifications]
    · simp [writes_append, hf.2.2.1, hl.2.2.1, hs.2.2.1, writes]
  · intro P hload
    have hn := notifications_checkMembers_diff env file [] P hfetch hload
    have hw := writes_checkMembers_diff env file [] P hfetch hload
    have hfl := file_checkMembers_diff env file [] P hfetch hload
    rw [joined_nil_current, left_nil_current] at hn hw hfl
    refine ⟨?_, ?_, ?_⟩
    · rw [hn]
      rfl
    · intro hP
      rw [hw, hfl]
      simp only [hP, ne_eq, not_false_eq_true, or_true, if_true, true_and]
      exact fun hwrite => file_saveMembers env file [] hwrite
    · intro hP
      rw [hw, hfl]
      simp [hP]

/-- C6 at a body without `characters`, over a snapshot of Alice and Bob. -/
theorem C6_malformed_payload_is_empty_roster_witness :
    (sampleEnv (some "http://discord.mock/webhook") (.response .noCharacters) (fun _ => none)
        none).get ("https://evewho.com/api/corplist/" ++ "98735707") = .response .noCharacters
      ∧ (fetchMembers
          (sampleEnv (some "http://discord.mock/webhook") (.response .noCharacters)
            (fun _ => none) none)
          "98735707").1 = some []
      ∧ 1 ≤ snapshotReads
          (checkMembers
            (sampleEnv (some "http://discord.mock/webhook") (.response .noCharacters)
              (fun _ => none) none)
            (.roster [alice, bob])).2 :=
  ⟨rfl,
    (C6_malformed_payload_is_empty_roster
      (sampleEnv (some "http://discord.mock/webhook") (.response .noCharacters) (fun _ => none)
        none)
      (.roster [alice, bob]) .noCharacters rfl (Or.inl rfl)).1,
    (C6_malformed_payload_is_empty_roster
      (sampleEnv (some "http://discord.mock/webhook") (.response .noCharacters) (fun _ => none)
        none)
      (.roster [alice, bob]) .noCharacters rfl (Or.inl rfl)).2.1⟩

/-- C6 as stated fails: the GET resolves with a body that has no `characters`, the snapshot
is Alice, Bob; the cycle is not the aborted one (file untouched, no message, no snapshot
access, no write): it reads the snapshot, announces that Alice and Bob have left, POSTs both
messages and overwrites the snapshot with the empty roster. -/
theorem C6_malformed_payload_counterexample :
    (sampleEnv (some "http://discord.mock/webhook") (.response .noCharacters) (fun _ => none)
        none).get corpUrl = .response .noCharacters
      ∧ ¬ ((checkMembers
              (sampleEnv (some "http://discord.mock/webhook") (.response .noCharacters)
                (fun _ => none) none)
              (.roster [alice, bob])).1 = .roster [alice, bob]
            ∧ notifications
                (checkMembers
                  (sampleEnv (some "http://discord.mock/webhook") (.response .noCharacters)
                    (fun _ => none) none)
                  (.roster [alice, bob])).2 = []
            ∧ snapshotReads
                (checkMembers
                  (sampleEnv (some "http://discord.mock/webhook") (.response .noCharacters)
                    (fun _ => none) none)
                  (.roster [alice, bob])).2 = 0
            ∧ writes
                (checkMembers
                  (sampleEnv (some "http://discord.mock/webhook") (.response .noCharacters)
                    (fun _ => none) none)
                  (.roster [alice, bob])).2 = [])
      ∧ checkMembers
          (sampleEnv (some "http://discord.mock/webhook") (.response .noCharacters)
            (fun _ => none) none)
          (.roster [alice, bob])
        = (.roster [],
            [.log "Checking members for corp 98735707...",
             .httpGet "https://evewho.com/api/corplist/98735707",
             .existsSync,
             .readFile,
             .log "2 members left.",
             .sendDiscordWebhook "**Alice** has left the corporation.",
             .httpPost "http://discord.mock/webhook" "**Alice** has left the corporation.",
             .log "Sent Discord notification: **Alice** has left the corporation.",
             .sendDiscordWebhook "**Bob** has left the corporation.",
             .httpPost "http://discord.mock/webhook" "**Bob** has left the corporation.",
             .log "Sent Discord notification: **Bob** has left the corporation.",
             .writeFile []]) := by
  refine ⟨rfl, ?_, ?_⟩ <;> decide

/-- C7 (disabled sink): with the webhook variable unset, empty or equal to
`your_webhook_url_here`, a call of `sendDiscordWebhook` only logs and issues no POST; no
cycle issues a POST; and a cycle that finds a non-empty `joined` or `left` still makes its
one write, of the fetched roster, after which (the write having returned) the snapshot file
holds the fetched roster. -/
theorem C7_disabled_sink (env : Env)
    (hurl : env.processEnv.DISCORD_WEBHOOK_URL = none
      ∨ env.processEnv.DISCORD_WEBHOOK_URL = some ""
      ∨ env.processEnv.DISCORD_WEBHOOK_URL = some "your_webhook_url_here") :
    (∀ k content,
        sendDiscordWebhook env k content
            = [Event.sendDiscordWebhook content,
                Event.log
                  ("Discord Webhook URL not configured, skipping notification: " ++ content)]
          ∧ posts (sendDiscordWebhook env k content) = [])
      ∧ (∀ file, posts (checkMembers env file).2 = [])
      ∧ (∀ file C P,
          (fetchMembers env (getConfig env.processEnv).corpId).1 = some C →
          (loadPreviousMembers env file).1 = some P →
          (joined C P ≠ [] ∨ left C P ≠ []) →
          posts (checkMembers env file).2 = []
            ∧ writes (checkMembers env file).2 = [C]
            ∧ (env.write = none → (checkMembers env file).1 = .roster C)) := by
  have h : webhookDisabled env.processEnv.DISCORD_WEBHOOK_URL = true := by
    rcases hurl with h | h | h <;> simp [h, webhookDisabled]
  refine ⟨fun k content => ⟨sendDiscordWebhook_disabled env k content h,
      posts_sendDiscordWebhook_disabled env k content h⟩,
    fun file => posts_checkMembers_disabled env file h, ?_⟩
  intro file C P hfetch hload hchanged
  exact ⟨posts_checkMembers_disabled env file h,
    checkMembers_changed env file C P hfetch hload hchanged⟩

/-- C7 with the placeholder URL, on scenario 3 of the tests: Charlie joined. -/
theorem C7_disabled_sink_witness :
    (sampleEnv (some "your_webhook_url_here") (.response (.characters [alice, bob, charlie]))
        (fun _ => none) none).processEnv.DISCORD_WEBHOOK_URL = some "your_webhook_url_here"
      ∧ joined [alice, bob, charlie] [alice, bob] ≠ []
      ∧ posts
          (checkMembers
            (sampleEnv (some "your_webhook_url_here")
              (.response (.characters [alice, bob, charlie])) (fun _ => none) none)
            (.roster [alice, bob])).2 = []
      ∧ writes
          (checkMembers
            (sampleEnv (some "your_webhook_url_here")
              (.response (.characters [alice, bob, charlie])) (fun _ => none) none)
            (.roster [alice, bob])).2 = [[alice, bob, charlie]] :=
  ⟨rfl, by decide,
    ((C7_disabled_sink
      (sampleEnv (some "your_webhook_url_here") (.response (.characters [alice, bob, charlie]))
        (fun _ => none) none)
      (Or.inr (Or.inr rfl))).2.2 (.roster [alice, bob]) [alice, bob, charlie] [alice, bob]
        rfl rfl (Or.inl (by decide))).1,
    ((C7_disabled_sink
      (sampleEnv (some "your_webhook_url_here") (.response (.characters [alice, bob, charlie]))
        (fun _ => none) none)
      (Or.inr (Or.inr rfl))).2.2 (.roster [alice, bob]) [alice, bob, charlie] [alice, bob]
        rfl rfl (Or.inl (by decide))).2.1⟩

/-- C8 (corrupt snapshot): when the snapshot file exists and reading or parsing it throws,
`loadPreviousMembers` returns the empty array (not `null`), so with a fetched roster `C`
`joined` is `C`, `left` is empty, the messages handed to `sendDiscordWebhook` are one
joined-message per member of `C`, in order, and when `C` is non-empty the cycle makes one
write, of `C`, after which (the write having returned) the snapshot file holds `C`. -/
theorem C8_corrupt_snapshot_is_empty_roster (env : Env) (raw : String) (C : List Member)
    (hfetch : (fetchMembers env (getConfig env.processEnv).corpId).1 = some C) :
    (loadPreviousMembers env (.corrupt raw)).1 = some []
      ∧ joined C [] = C
      ∧ left C [] = []
      ∧ notifications (checkMembers env (.corrupt raw)).2
          = C.map (fun m => "**" ++ m.name ++ "** has joined the corporation.")
      ∧ (C ≠ [] →
          writes (checkMembers env (.corrupt raw)).2 = [C]
            ∧ (env.write = none → (checkMembers env (.corrupt raw)).1 = .roster C)) := by
  refine ⟨rfl, joined_nil_previous C, left_nil_previous C, ?_, ?_⟩
  · rw [notifications_checkMembers_diff env (.corrupt raw) C [] hfetch rfl,
      joined_nil_previous, left_nil_previous]
    simp only [List.map_nil, List.append_nil]
    rfl
  · intro hC
    exact checkMembers_changed env (.corrupt raw) C [] hfetch rfl
      (Or.inl (by rw [joined_nil_previous]; exact hC))

/-- C8 on a truncated snapshot file, Alice and Bob fetched. -/
theorem C8_corrupt_snapshot_is_empty_roster_witness :
    (fetchMembers (testEnv [alice, bob]) "98735707").1 = some [alice, bob]
      ∧ notifications (checkMembers (testEnv [alice, bob]) (.corrupt "[\n  \x7b")).2
          = [alice, bob].map (fun m => "**" ++ m.name ++ "** has joined the corporation.") :=
  ⟨rfl,
    (C8_corrupt_snapshot_is_empty_roster (testEnv [alice, bob]) "[\n  \x7b" [alice, bob]
      rfl).2.2.2.1⟩

/-- C9 (duplicate ids), as the code has it: the lookup `Map` built from a roster keeps one
entry per id, with the name of the last roster entry carrying that id; the diff asks the
maps only whether an id is present and filters the rosters themselves, so for an id absent
from the snapshot every current entry carrying it is in `joined`, for an id absent from the
current roster every snapshot entry carrying it is in `left`, and the messages handed to
`sendDiscordWebhook` are one per entry of `joined` and of `left`, each with the name of its
own entry. -/
theorem C9_duplicate_ids_kept_in_diff (C P : List Member) (i : Key) :
    ((memberMap C).entries.map Prod.fst).Nodup
      ∧ (∀ pre m post, C = pre ++ m :: post → m.character_id = i → i ∉ ids post →
          (memberMap C).get i = some m.name)
      ∧ (i ∉ ids P →
          (joined C P).filter (fun m => decide (m.character_id = i))
            = C.filter (fun m => decide (m.character_id = i)))
      ∧ (i ∉ ids C →
          (left C P).filter (fun m => decide (m.character_id = i))
            = P.filter (fun m => decide (m.character_id = i)))
      ∧ (∀ env file,
          (fetchMembers env (getConfig env.processEnv).corpId).1 = some C →
          (loadPreviousMembers env file).1 = some P →
          notifications (checkMembers env file).2
            = (joined C P).map (fun m => "**" ++ m.name ++ "** has joined the corporation.")
              ++ (left C P).map (fun m => "**" ++ m.name ++ "** has left the corporation.")) := by
  refine ⟨nodup_keys_memberMap C, ?_, filter_id_joined C P i, filter_id_left C P i, ?_⟩
  · intro pre m post hC hm hpost
    subst hC
    subst hm
    exact get_memberMap_last pre post m hpost
  · intro env file hfetch hload
    exact notifications_checkMembers_diff env file C P hfetch hload

/-- C9 as stated fails: the snapshot is Alice(1) and the fetched roster is Alice(1), Bob(2),
Bobby(2).  The lookup `Map` holds one entry for id 2, named Bobby, but `joined` has two
entries with id 2, not one, and two messages are handed to `sendDiscordWebhook`, the first
naming Bob, not the single message naming Bobby. -/
theorem C9_duplicate_ids_counterexample :
    ids [alice, bob, bobby] = [.num 1, .num 2, .num 2]
      ∧ (memberMap [alice, bob, bobby]).entries = [(.num 1, "Alice"), (.num 2, "Bobby")]
      ∧ joined [alice, bob, bobby] [alice] = [bob, bobby]
      ∧ ¬ ((joined [alice, bob, bobby] [alice]).filter
              (fun m => decide (m.character_id = .num 2))).length = 1
      ∧ notifications (checkMembers (testEnv [alice, bob, bobby]) (.roster [alice])).2
          = ["**Bob** has joined the corporation.", "**Bobby** has joined the corporation."]
      ∧ ¬ notifications (checkMembers (testEnv [alice, bob, bobby]) (.roster [alice])).2
          = ["**Bobby** has joined the corporation."] := by
  refine ⟨?_, ?_, ?_, ?_, ?_, ?_⟩ <;> decide

/-- C10 (two-cycle convergence): whatever the snapshot file before (absent, corrupt or any
roster) and whatever the webhook settings and POST outcomes of either cycle, if a cycle
fetches `R` and the write it makes, if any, returns, then a second cycle that fetches `R`
again hands no message to `sendDiscordWebhook`, issues no POST, makes no write and leaves
the snapshot file as the first cycle left it. -/
theorem C10_two_cycle_convergence (env1 env2 : Env) (file : FileState) (R : List Member)
    (hfetch1 : (fetchMembers env1 (getConfig env1.processEnv).corpId).1 = some R)
    (hfetch2 : (fetchMembers env2 (getConfig env2.processEnv).corpId).1 = some R)
    (hwrite : writes (checkMembers env1 file).2 ≠ [] → env1.write = none) :
    notifications (checkMembers env2 (checkMembers env1 file).1).2 = []
      ∧ posts (checkMembers env2 (checkMembers env1 file).1).2 = []
      ∧ writes (checkMembers env2 (checkMembers env1 file).1).2 = []
      ∧ (checkMembers env2 (checkMembers env1 file).1).1 = (checkMembers env1 file).1 := by
  -- once the snapshot holds `R`, a cycle fetching `R` finds no change
  have settled : ∀ f, f = FileState.roster R →
      notifications (checkMembers env2 f).2 = [] ∧ posts (checkMembers env2 f).2 = []
        ∧ writes (checkMembers env2 f).2 = [] ∧ (checkMembers env2 f).1 = f := by
    intro f hf
    subst hf
    exact checkMembers_unchanged env2 (.roster R) R R hfetch2 rfl (joined_self R) (left_self R)
  -- a first cycle on path 3 either writes `R` or leaves a file with an empty diff
  have diffPath : ∀ P, (loadPreviousMembers env1 file).1 = some P →
      (loadPreviousMembers env2 file).1 = some P →
      notifications (checkMembers env2 (checkMembers env1 file).1).2 = []
        ∧ posts (checkMembers env2 (checkMembers env1 file).1).2 = []
        ∧ writes (checkMembers env2 (checkMembers env1 file).1).2 = []
        ∧ (checkMembers env2 (checkMembers env1 file).1).1 = (checkMembers env1 file).1 := by
    intro P hload1 hload2
    by_cases hchanged : joined R P ≠ [] ∨ left R P ≠ []
    · have hc := checkMembers_changed env1 file R P hfetch1 hload1 hchanged
      exact settled _ (hc.2 (hwrite (by rw [hc.1]; simp)))
    · have hj : joined R P = [] := by
        by_contra h
        exact hchanged (Or.inl h)
      have hl : left R P = [] := by
        by_contra h
        exact hchanged (Or.inr h)
      rw [(checkMembers_unchanged env1 file R P hfetch1 hload1 hj hl).2.2.2]
      exact checkMembers_unchanged env2 file R P hfetch2 hload2 hj hl
  cases file with
  | absent =>
    have h1 := checkMembers_first_run env1 .absent R hfetch1 rfl
    have hw : writes (checkMembers env1 .absent).2 = [R] := by
      rw [h1]
      simp [writes_append, (trace_fetchMembers env1 _).2.2.1,
        (trace_loadPreviousMembers env1 .absent).2.2.1, (trace_saveMembers env1 .absent R).2.2.1,
        writes]
    have hfile : (checkMembers env1 .absent).1 = .roster R := by
      rw [h1]
      exact file_saveMembers env1 .absent R (hwrite (by rw [hw]; simp))
    exact settled _ hfile
  | corrupt raw => exact diffPath [] rfl rfl
  | roster P => exact diffPath P rfl rfl

/-- C10 on scenarios 3 and 2 of the tests, the POST of the first cycle failing: Charlie
joins, the snapshot is rewritten, and a second fetch of the same roster is silent. -/
theorem C10_two_cycle_convergence_witness :
    (fetchMembers
        (sampleEnv (some "http://discord.mock/webhook")
          (.response (.characters [alice, bob, charlie])) (fun _ => some "socket hang up") none)
        "98735707").1 = some [alice, bob, charlie]
      ∧ (fetchMembers (testEnv [alice, bob, charlie]) "98735707").1 = some [alice, bob, charlie]
      ∧ notifications
          (checkMembers (testEnv [alice, bob, charlie])
            (checkMembers
              (sampleEnv (some "http://discord.mock/webhook")
                (.response (.characters [alice, bob, charlie])) (fun _ => some "socket hang up")
                none)
              (.roster [alice, bob])).1).2 = []
      ∧ writes
          (checkMembers (testEnv [alice, bob, charlie])
            (checkMembers
              (sampleEnv (some "http://discord.mock/webhook")
                (.response (.characters [alice, bob, charlie])) (fun _ => some "socket hang up")
                none)
              (.roster [alice, bob])).1).2 = [] :=
  ⟨rfl, rfl,
    (C10_two_cycle_convergence
      (sampleEnv (some "http://discord.mock/webhook")
        (.response (.characters [alice, bob, charlie])) (fun _ => some "socket hang up") none)
      (testEnv [alice, bob, charlie]) (.roster [alice, bob]) [alice, bob, charlie] rfl rfl
      (fun _ => rfl)).1,
    (C10_two_cycle_convergence
      (sampleEnv (some "http://discord.mock/webhook")
        (.response (.characters [alice, bob, charlie])) (fun _ => some "socket hang up") none)
      (testEnv [alice, bob, charlie]) (.roster [alice, bob]) [alice, bob, charlie] rfl rfl
      (fun _ => rfl)).2.2.1⟩

end EveMemberWebhook
